import Mathlib

/-!
Verification of the track attach/detach lifecycle, filter chain and observer
registry of an RTC media engine, as declared in
`include/rtc/low_level_api/include/audio_track_i.h` and
`include/rtc/low_level_api/include/video_track_i.h`.

The headers declare abstract interfaces (pure virtual member functions); the
engine implementing them is not part of the visible sources. Enumerations,
default member-function bodies and the track-id generator are present in the
headers and are embedded directly from them. Behaviour that only the missing
engine decides (state transitions, the filter container, the observer set) is
modelled from the specification text, and each such definition is marked.
-/

namespace Rtc

/-- Error taxonomy of the specification (section 7): operations report
`ok` (0), or a negative code such as `invalidState`, `notFound`,
`duplicateId`, `staleReference`, `notSupported`, `propertyRejected`. -/
inductive ErrCode
  | ok
  | invalidState
  | notFound
  | duplicateId
  | staleReference
  | notSupported
  | propertyRejected
deriving DecidableEq, Repr

/-- Modelled from the spec: the track state machine (section 4.1). The
concrete track classes implementing `attach`/`detach` are not in the visible
sources (the headers only declare them pure virtual), so the states
`Idle -> Attaching -> Attached(Enabled|Disabled) -> Detaching -> Idle/Destroyed`
are taken from the specification text. -/
inductive TrackState
  | idle
  | attaching
  | attached (enabled : Bool)
  | detaching
  | destroyed
deriving DecidableEq, Repr

/-- Modelled from the spec: `attach(info)` is valid only from `Idle`; it fails
with `InvalidState` (state unchanged) from any other state, and on success
transitions to `Attached(Enabled)`. The synchronous call traverses the
transient `Attaching` state internally, so the returned state is the
post-transition one. -/
def attachSM (s : TrackState) : ErrCode × TrackState :=
  match s with
  | .idle => (.ok, .attached true)
  | s => (.invalidState, s)

/-- Modelled from the spec: `detach(info, reason)` is valid from any
`Attached*` state (always succeeds, transitions to `Idle`, and delivers the
reason to observers for diagnostics); it is a successful no-op from `Idle`.
The reason type `ρ` is the calling track variant's `DetachReason` enumeration;
the transition logic does not consult it. Returns
(status, new state, reason delivered to observers, if any). -/
def detachSM {ρ : Type} (s : TrackState) (r : ρ) : ErrCode × TrackState × Option ρ :=
  match s with
  | .attached _ => (.ok, .idle, some r)
  | .idle => (.ok, .idle, none)
  | s => (.invalidState, s, none)

/-- `ILocalAudioTrackEx::DetachReason` (audio_track_i.h line 28):
`enum DetachReason { MANUAL, TRACK_DESTROY, MIXER_DESTROY };` -/
inductive LocalAudioDetachReason
  | MANUAL
  | TRACK_DESTROY
  | MIXER_DESTROY
deriving DecidableEq, Repr

/-- Source spelling of each `ILocalAudioTrackEx::DetachReason` enumerator. -/
def LocalAudioDetachReason.name : LocalAudioDetachReason → String
  | .MANUAL => "MANUAL"
  | .TRACK_DESTROY => "TRACK_DESTROY"
  | .MIXER_DESTROY => "MIXER_DESTROY"

/-- All enumerators of `ILocalAudioTrackEx::DetachReason`, in source order. -/
def localAudioDetachReasons : List LocalAudioDetachReason :=
  [.MANUAL, .TRACK_DESTROY, .MIXER_DESTROY]

/-- `ILocalVideoTrackEx::DetachReason` (video_track_i.h line 208):
`enum DetachReason { MANUAL, TRACK_DESTROY, NETWORK_DESTROY, CODEC_CHANGE};` -/
inductive LocalVideoDetachReason
  | MANUAL
  | TRACK_DESTROY
  | NETWORK_DESTROY
  | CODEC_CHANGE
deriving DecidableEq, Repr

/-- Source spelling of each `ILocalVideoTrackEx::DetachReason` enumerator. -/
def LocalVideoDetachReason.name : LocalVideoDetachReason → String
  | .MANUAL => "MANUAL"
  | .TRACK_DESTROY => "TRACK_DESTROY"
  | .NETWORK_DESTROY => "NETWORK_DESTROY"
  | .CODEC_CHANGE => "CODEC_CHANGE"

/-- All enumerators of `ILocalVideoTrackEx::DetachReason`, in source order. -/
def localVideoDetachReasons : List LocalVideoDetachReason :=
  [.MANUAL, .TRACK_DESTROY, .NETWORK_DESTROY, .CODEC_CHANGE]

/-- `IRemoteVideoTrackEx::DetachReason` (video_track_i.h line 466):
`enum DetachReason { MANUAL, TRACK_DESTROY, NETWORK_DESTROY };` -/
inductive RemoteVideoDetachReason
  | MANUAL
  | TRACK_DESTROY
  | NETWORK_DESTROY
deriving DecidableEq, Repr

/-- Source spelling of each `IRemoteVideoTrackEx::DetachReason` enumerator. -/
def RemoteVideoDetachReason.name : RemoteVideoDetachReason → String
  | .MANUAL => "MANUAL"
  | .TRACK_DESTROY => "TRACK_DESTROY"
  | .NETWORK_DESTROY => "NETWORK_DESTROY"

/-- All enumerators of `IRemoteVideoTrackEx::DetachReason`, in source order. -/
def remoteVideoDetachReasons : List RemoteVideoDetachReason :=
  [.MANUAL, .TRACK_DESTROY, .NETWORK_DESTROY]

/-- The detach-reason set the specification claims for every variant:
{Manual, TrackDestroy, NetworkDestroy, CodecChange} (section 4.1). Written
from the spec's words, to be compared with the enumerations embedded from the
headers. -/
def specClaimedDetachReasonNames : List String :=
  ["MANUAL", "TRACK_DESTROY", "NETWORK_DESTROY", "CODEC_CHANGE"]

/-- C return type of a declared member function. -/
inductive CReturnType
  | cint
  | cbool
  | cvoid
deriving DecidableEq, Repr

/-- The externally visible attach / detach / enable / observer-registration
operations declared by the three track extension interfaces. -/
inductive ApiOp
  | localVideoAttach
  | localVideoDetach
  | localVideoRegisterTrackObserver
  | localVideoUnregisterTrackObserver
  | localVideoSetEnabled
  | localAudioAttach
  | localAudioDetach
  | localAudioSetEnabled
  | localAudioRegisterTrackObserver
  | localAudioUnregisterTrackObserver
  | remoteVideoAttach
  | remoteVideoDetach
  | remoteVideoRegisterTrackObserver
  | remoteVideoUnregisterTrackObserver
deriving DecidableEq, Repr

/-- Declared return type of each operation, transcribed from the headers:
video_track_i.h lines 345-352 (`bool attach`, `bool detach`,
`bool registerTrackObserver`, `bool unregisterTrackObserver`), line 420
(`int setEnabledLLApiInternal`), lines 495-505 (remote variants);
audio_track_i.h lines 38-40 (`void attach`, `void detach`), line 67
(`int setEnabledLLApiInternal`), lines 83-84
(`int registerTrackObserverLLApiInternal`,
`int unregisterTrackObserverLLApiInternal`). -/
def returnType : ApiOp → CReturnType
  | .localVideoAttach => .cbool
  | .localVideoDetach => .cbool
  | .localVideoRegisterTrackObserver => .cbool
  | .localVideoUnregisterTrackObserver => .cbool
  | .localVideoSetEnabled => .cint
  | .localAudioAttach => .cvoid
  | .localAudioDetach => .cvoid
  | .localAudioSetEnabled => .cint
  | .localAudioRegisterTrackObserver => .cint
  | .localAudioUnregisterTrackObserver => .cint
  | .remoteVideoAttach => .cbool
  | .remoteVideoDetach => .cbool
  | .remoteVideoRegisterTrackObserver => .cbool
  | .remoteVideoUnregisterTrackObserver => .cbool

/-- Modelled from the spec: a filter stage. The concrete `IAudioFilter` /
`IVideoFilter` classes are not in the visible sources. `inst` distinguishes
distinct filter instances (pointer identity in C++); `id` is the name under
which the filter is registered at a position (section 3, FilterSlot). -/
structure Filter where
  inst : Nat
  id : String
deriving DecidableEq, Repr

/-- Modelled from the spec: the fixed enumerated set of filter positions
(section 3: post-capturer, pre-encoder, pre-renderer). -/
inductive FilterPosition
  | postCapturer
  | preEncoder
  | preRenderer
deriving DecidableEq, Repr

/-- Modelled from the spec: the FilterChain, a position-keyed collection of
ordered filter lists (section 2); within a position, order is insertion
order. -/
structure FilterChain where
  postCapturer : List Filter
  preEncoder : List Filter
  preRenderer : List Filter
deriving DecidableEq, Repr

/-- The ordered filter list a chain holds at a position. -/
def FilterChain.slot (c : FilterChain) : FilterPosition → List Filter
  | .postCapturer => c.postCapturer
  | .preEncoder => c.preEncoder
  | .preRenderer => c.preRenderer

/-- Replace the filter list at one position. -/
def FilterChain.setSlot (c : FilterChain) (p : FilterPosition) (l : List Filter) : FilterChain :=
  match p with
  | .postCapturer => { c with postCapturer := l }
  | .preEncoder => { c with preEncoder := l }
  | .preRenderer => { c with preRenderer := l }

/-- The chain with no filters installed. -/
def emptyChain : FilterChain := ⟨[], [], []⟩

/-- Modelled from the spec: `addFilter(filter, position, id)` inserts at the
tail of the ordered list for the position; it fails (`DuplicateId`, reported
as boolean false per the declared `bool addVideoFilterLLApiInternal` /
`bool addAudioFilterLLApiInternal` signatures) if the id is already present
at that position, leaving the chain unchanged (section 4.2, reject
semantics). -/
def addFilter (c : FilterChain) (f : Filter) (p : FilterPosition) : Bool × FilterChain :=
  if (c.slot p).any (fun g => g.id = f.id) then (false, c)
  else (true, c.setSlot p (c.slot p ++ [f]))

/-- Modelled from the spec: `removeFilter(filter, position)` removes by
identity of the filter instance; it reports false if the instance is not
installed at that position (section 4.2). -/
def removeFilter (c : FilterChain) (f : Filter) (p : FilterPosition) : Bool × FilterChain :=
  if f ∈ c.slot p then (true, c.setSlot p ((c.slot p).filter (fun g => g ≠ f)))
  else (false, c)

/-- A mutation of the filter chain: one add or one remove call. -/
inductive ChainOp
  | add (f : Filter) (p : FilterPosition)
  | remove (f : Filter) (p : FilterPosition)
deriving DecidableEq, Repr

/-- Apply one chain operation, keeping only the resulting chain. -/
def applyChainOp (c : FilterChain) : ChainOp → FilterChain
  | .add f p => (addFilter c f p).2
  | .remove f p => (removeFilter c f p).2

/-- Apply a sequence of chain operations from left to right. -/
def applyChainOps (c : FilterChain) : List ChainOp → FilterChain
  | [] => c
  | op :: rest => applyChainOps (applyChainOp c op) rest

/-- At every position, the installed ids are pairwise distinct. -/
def idsUnique (c : FilterChain) : Prop :=
  (c.postCapturer.map Filter.id).Nodup ∧
  (c.preEncoder.map Filter.id).Nodup ∧
  (c.preRenderer.map Filter.id).Nodup

/-- Modelled from the spec: the observer registry holds the registered
observers in registration order; observers are identified by reference
(section 4.4). The concrete registry (`WeakObserversFacility`) is not in the
visible sources. -/
structure ObserverRegistry where
  observers : List Nat
deriving DecidableEq, Repr

/-- Modelled from the spec: `register(observer)` adds a weakly-held
reference; duplicate registration of the same observer is a successful no-op
(section 4.4). Returns the integer status code (0 = success) and the new
registry. -/
def registerObserver (reg : ObserverRegistry) (o : Nat) : Int × ObserverRegistry :=
  if o ∈ reg.observers then (0, reg)
  else (0, ⟨reg.observers ++ [o]⟩)

/-- The id handed to the k-th `ILocalVideoTrackEx` constructed in the process
(0-based). Embeds `ILocalVideoTrackEx() : id_(id_generator_++)` with
`static std::atomic<int> id_generator_` (video_track_i.h lines 314, 437,
442): the generator starts at 0 and each construction takes the current
value, so the k-th track's `id_` is k reduced to a signed 32-bit integer. -/
def trackIdOfIndex (k : Nat) : Int :=
  if k % 4294967296 < 2147483648 then ((k % 4294967296 : Nat) : Int)
  else ((k % 4294967296 : Nat) : Int) - 4294967296

/-- The local video track record: `const int id_`, `uid_t user_id_`
(video_track_i.h lines 437-439) together with the modelled lifecycle
state. -/
structure LocalVideoTrack where
  id : Int
  userId : Nat
  state : TrackState
deriving DecidableEq, Repr

/-- `setUserId(uid)` (video_track_i.h line 337): stores the uid and
returns 0. -/
def LocalVideoTrack.setUserId (t : LocalVideoTrack) (uid : Nat) : Int × LocalVideoTrack :=
  (0, { t with userId := uid })

/-- The track-level view of `attach`: the state machine acts on the track's
state; the other fields, in particular the const `id_`, are untouched. -/
def LocalVideoTrack.applyAttach (t : LocalVideoTrack) : ErrCode × LocalVideoTrack :=
  ((attachSM t.state).1, { t with state := (attachSM t.state).2 })

/-- The track-level view of `detach`: the state machine acts on the track's
state; the other fields, in particular the const `id_`, are untouched. -/
def LocalVideoTrack.applyDetach (t : LocalVideoTrack) (r : LocalVideoDetachReason) :
    ErrCode × LocalVideoTrack :=
  ((detachSM t.state r).1, { t with state := (detachSM t.state r).2.1 })

/-- Construct the next local video track: the constructor reads the process
generator (`id_(id_generator_++)`) and advances it. -/
def mkLocalVideoTrack (gen : Nat) : LocalVideoTrack × Nat :=
  ({ id := trackIdOfIndex gen, userId := 0, state := .idle }, gen + 1)

/-- Modelled from the spec: `PacketStats` is declared in `track_stat_i.h`,
which is not among the visible sources; it is a point-in-time statistics
record whose fields the base-class default `getStatistics` neither reads nor
writes, so they are kept abstract as an opaque list of counters. -/
structure PacketStats where
  counters : List Nat
deriving DecidableEq, Repr

/-- `ILocalAudioTrackEx::getStatistics` base-class default body
(audio_track_i.h line 52): `virtual bool getStatistics(PacketStats& stats)
{ return true; }` — it returns true and leaves the by-reference argument
untouched. -/
def getStatisticsDefault (stats : PacketStats) : Bool × PacketStats :=
  (true, stats)

/-- Reading a slot just written yields the written list. -/
theorem slot_setSlot_same (c : FilterChain) (p : FilterPosition) (l : List Filter) :
    (c.setSlot p l).slot p = l := by
  cases p <;> rfl

/-- Writing a slot twice keeps only the second write. -/
theorem setSlot_setSlot (c : FilterChain) (p : FilterPosition) (l₁ l₂ : List Filter) :
    (c.setSlot p l₁).setSlot p l₂ = c.setSlot p l₂ := by
  cases p <;> rfl

/-- Writing a slot with its own content is the identity. -/
theorem setSlot_slot (c : FilterChain) (p : FilterPosition) :
    c.setSlot p (c.slot p) = c := by
  cases p <;> rfl

/-- Appending a filter whose id is absent preserves distinctness of the ids. -/
theorem nodup_ids_append_fresh (l : List Filter) (f : Filter)
    (h : (l.map Filter.id).Nodup) (hf : ∀ g ∈ l, ¬g.id = f.id) :
    (l.map Filter.id ++ [f.id]).Nodup := by
  rw [List.nodup_append]
  refine ⟨h, List.nodup_singleton _, ?_⟩
  intro a ha hb
  rcases List.mem_map.mp ha with ⟨g, hg, rfl⟩
  rw [List.mem_singleton] at hb
  exact hf g hg hb

/-- Filtering a list preserves distinctness of the ids. -/
theorem nodup_ids_filter (l : List Filter) (q : Filter → Bool)
    (h : (l.map Filter.id).Nodup) : ((l.filter q).map Filter.id).Nodup :=
  List.Nodup.sublist ((l.filter_sublist).map Filter.id) h

/-- One add or remove call preserves per-position id uniqueness. -/
theorem idsUnique_applyChainOp (c : FilterChain) (op : ChainOp) (h : idsUnique c) :
    idsUnique (applyChainOp c op) := by
  obtain ⟨h1, h2, h3⟩ := h
  cases op with
  | add f p =>
    simp only [applyChainOp, addFilter]
    split
    · exact ⟨h1, h2, h3⟩
    · next hdup =>
      rw [Bool.not_eq_true] at hdup
      cases p <;>
        simp_all [idsUnique, FilterChain.setSlot, FilterChain.slot] <;>
        exact nodup_ids_append_fresh _ _ (by assumption) hdup
  | remove f p =>
    simp only [applyChainOp, removeFilter]
    split
    · cases p <;>
        simp_all [idsUnique, FilterChain.setSlot, FilterChain.slot] <;>
        exact nodup_ids_filter _ _ (by assumption)
    · exact ⟨h1, h2, h3⟩

/-- Any sequence of add/remove calls preserves per-position id uniqueness. -/
theorem idsUnique_applyChainOps (ops : List ChainOp) (c : FilterChain) (h : idsUnique c) :
    idsUnique (applyChainOps c ops) := by
  induction ops generalizing c with
  | nil => exact h
  | cons op rest ih => exact ih _ (idsUnique_applyChainOp _ _ h)

/-- C1: attach(info) is valid only from Idle: from any Attached state it
fails with InvalidState leaving the state unchanged; from Idle it succeeds
and transitions to Attached(Enabled); and whenever attach reports success the
prior state was Idle and the new state is Attached(Enabled). -/
theorem claim_C1_attach_only_from_idle :
    (∀ e, attachSM (.attached e) = (.invalidState, .attached e)) ∧
    attachSM .idle = (.ok, .attached true) ∧
    (∀ s, (attachSM s).1 = .ok → s = .idle ∧ (attachSM s).2 = .attached true) := by
  refine ⟨fun e => rfl, rfl, fun s h => ?_⟩
  cases s <;> simp_all [attachSM]

/-- Witness for C1, at the concrete state Idle. -/
theorem claim_C1_attach_witness :
    TrackState.idle = TrackState.idle ∧ (attachSM .idle).2 = .attached true :=
  claim_C1_attach_only_from_idle.2.2 .idle (by decide)

/-- C2: detach on a never-attached (Idle) track is a successful no-op for
every reason of every variant, and detach from any Attached state always
succeeds. -/
theorem claim_C2_detach_noop_and_success :
    (∀ (ρ : Type) (r : ρ), detachSM .idle r = (.ok, .idle, none)) ∧
    (∀ (ρ : Type) (r : ρ) (e : Bool), (detachSM (.attached e) r).1 = .ok) :=
  ⟨fun _ _ => rfl, fun _ _ _ => rfl⟩

/-- C3 counterexample: the detach-reason sets are not the claimed common set
{MANUAL, TRACK_DESTROY, NETWORK_DESTROY, CODEC_CHANGE}: local audio has
MIXER_DESTROY (not in the claimed set) and lacks NETWORK_DESTROY, and remote
video lacks CODEC_CHANGE. -/
theorem claim_C3_counterexample :
    "MIXER_DESTROY" ∈ localAudioDetachReasons.map LocalAudioDetachReason.name ∧
    "MIXER_DESTROY" ∉ specClaimedDetachReasonNames ∧
    "CODEC_CHANGE" ∉ remoteVideoDetachReasons.map RemoteVideoDetachReason.name ∧
    "NETWORK_DESTROY" ∉ localAudioDetachReasons.map LocalAudioDetachReason.name := by
  decide

/-- C3 amended: local video detach reasons are exactly {MANUAL,
TRACK_DESTROY, NETWORK_DESTROY, CODEC_CHANGE}; local audio exactly {MANUAL,
TRACK_DESTROY, MIXER_DESTROY}; remote video exactly {MANUAL, TRACK_DESTROY,
NETWORK_DESTROY}; and for every variant's reason type, the reason does not
alter which state transition detach performs. -/
theorem claim_C3_amended_reason_sets :
    localVideoDetachReasons.map LocalVideoDetachReason.name = specClaimedDetachReasonNames ∧
    (∀ r : LocalVideoDetachReason, r ∈ localVideoDetachReasons) ∧
    localAudioDetachReasons.map LocalAudioDetachReason.name =
      ["MANUAL", "TRACK_DESTROY", "MIXER_DESTROY"] ∧
    (∀ r : LocalAudioDetachReason, r ∈ localAudioDetachReasons) ∧
    remoteVideoDetachReasons.map RemoteVideoDetachReason.name =
      ["MANUAL", "TRACK_DESTROY", "NETWORK_DESTROY"] ∧
    (∀ r : RemoteVideoDetachReason, r ∈ remoteVideoDetachReasons) ∧
    (∀ (ρ : Type) (r₁ r₂ : ρ) (s : TrackState),
      (detachSM s r₁).1 = (detachSM s r₂).1 ∧ (detachSM s r₁).2.1 = (detachSM s r₂).2.1) := by
  refine ⟨rfl, ?_, rfl, ?_, rfl, ?_, ?_⟩
  · intro r; cases r <;> decide
  · intro r; cases r <;> decide
  · intro r; cases r <;> decide
  · intro ρ r₁ r₂ s; cases s <;> exact ⟨rfl, rfl⟩

/-- C4 counterexample: the declared attach operations do not return integer
status codes — `ILocalVideoTrackEx::attach` returns bool and
`ILocalAudioTrackEx::attach` returns void. -/
theorem claim_C4_counterexample :
    returnType .localVideoAttach ≠ .cint ∧ returnType .localAudioAttach ≠ .cint := by
  decide

/-- C4 amended: every externally visible attach/detach/enable/observer
operation returns an integer status code or a boolean, except the local
audio attach and detach, which return void. -/
theorem claim_C4_amended_return_types :
    ∀ op : ApiOp, returnType op = .cint ∨ returnType op = .cbool ∨
      (returnType op = .cvoid ∧ (op = .localAudioAttach ∨ op = .localAudioDetach)) := by
  intro op; cases op <;> decide

/-- C5 counterexample: when the very filter instance is already installed at
the position, addFilter is rejected (duplicate id) yet removeFilter removes
the pre-existing entry, so the add/remove round trip does not restore the
original list. -/
theorem claim_C5_counterexample :
    ((removeFilter (addFilter ⟨[⟨0, "vp"⟩], [], []⟩ ⟨0, "vp"⟩ .postCapturer).2
        ⟨0, "vp"⟩ .postCapturer).2).postCapturer ≠
      (⟨[⟨0, "vp"⟩], [], []⟩ : FilterChain).postCapturer := by
  decide

/-- C5 amended: for every filter, position and chain state in which that
filter instance is not already installed at the position, addFilter followed
immediately by removeFilter of the same filter at the same position restores
the chain exactly. -/
theorem claim_C5_amended_roundtrip (c : FilterChain) (f : Filter) (p : FilterPosition)
    (h : f ∉ c.slot p) :
    (removeFilter (addFilter c f p).2 f p).2 = c := by
  by_cases hdup : (c.slot p).any (fun g => g.id = f.id) = true
  · rw [addFilter, if_pos hdup, removeFilter, if_neg h]
  · rw [addFilter, if_neg hdup]
    have hmem : f ∈ (c.setSlot p (c.slot p ++ [f])).slot p := by
      rw [slot_setSlot_same]
      exact List.mem_append_right _ (List.mem_singleton.mpr rfl)
    rw [removeFilter, if_pos hmem, slot_setSlot_same, setSlot_setSlot]
    have hfix : (c.slot p ++ [f]).filter (fun g => g ≠ f) = c.slot p := by
      rw [List.filter_append]
      have h1 : (c.slot p).filter (fun g => g ≠ f) = c.slot p := by
        apply List.filter_eq_self.mpr
        intro a ha
        simp only [ne_eq, decide_not, Bool.not_eq_eq_eq_not, Bool.not_true,
          decide_eq_false_iff_not]
        intro e
        exact h (e ▸ ha)
      have h2 : ([f].filter (fun g => g ≠ f)) = ([] : List Filter) := by simp
      rw [h1, h2, List.append_nil]
    rw [hfix, setSlot_slot]

/-- Witness for the amended C5, at a concrete empty chain. -/
theorem claim_C5_roundtrip_witness :
    (removeFilter (addFilter emptyChain ⟨1, "agc"⟩ .preEncoder).2 ⟨1, "agc"⟩ .preEncoder).2 =
      emptyChain :=
  claim_C5_amended_roundtrip emptyChain ⟨1, "agc"⟩ .preEncoder (by decide)

/-- C6: from the empty chain, every sequence of add/remove calls keeps at
most one filter per id at each position, and adding a filter whose id is
already present at the position is rejected, leaving the chain unchanged. -/
theorem claim_C6_unique_ids :
    (∀ ops : List ChainOp, idsUnique (applyChainOps emptyChain ops)) ∧
    (∀ (c : FilterChain) (f : Filter) (p : FilterPosition),
      (c.slot p).any (fun g => g.id = f.id) = true → addFilter c f p = (false, c)) := by
  constructor
  · intro ops
    exact idsUnique_applyChainOps ops emptyChain ⟨List.nodup_nil, List.nodup_nil, List.nodup_nil⟩
  · intro c f p h
    rw [addFilter, if_pos h]

/-- Witness for C6, at a concrete chain holding an "ns" filter already. -/
theorem claim_C6_unique_ids_witness :
    addFilter ⟨[⟨3, "ns"⟩], [], []⟩ ⟨4, "ns"⟩ .postCapturer = (false, ⟨[⟨3, "ns"⟩], [], []⟩) :=
  claim_C6_unique_ids.2 ⟨[⟨3, "ns"⟩], [], []⟩ ⟨4, "ns"⟩ .postCapturer (by decide)

/-- C8: registering an already-registered observer is a successful no-op,
and registering twice leaves the registry exactly as registering once, again
reporting success. -/
theorem claim_C8_register_idempotent :
    (∀ (reg : ObserverRegistry) (o : Nat), o ∈ reg.observers →
      registerObserver reg o = (0, reg)) ∧
    (∀ (reg : ObserverRegistry) (o : Nat),
      registerObserver (registerObserver reg o).2 o = (0, (registerObserver reg o).2)) := by
  constructor
  · intro reg o h
    rw [registerObserver, if_pos h]
  · intro reg o
    by_cases h : o ∈ reg.observers
    · simp [registerObserver, h]
    · simp [registerObserver, h]

/-- Witness for C8, at a concrete registry already holding observer 7. -/
theorem claim_C8_register_witness :
    registerObserver ⟨[7]⟩ 7 = (0, (⟨[7]⟩ : ObserverRegistry)) :=
  claim_C8_register_idempotent.1 ⟨[7]⟩ 7 (by decide)

/-- C9 counterexample: `id_generator_` is a 32-bit int, so the id sequence
wraps: the track constructed at index 2^31 receives a smaller id than the one
at index 2^31 - 1, and the tracks at indices 0 and 2^32 share id 0. -/
theorem claim_C9_counterexample :
    (2147483647 : Nat) < 2147483648 ∧
    trackIdOfIndex 2147483648 < trackIdOfIndex 2147483647 ∧
    trackIdOfIndex 0 = trackIdOfIndex 4294967296 ∧ (0 : Nat) ≠ 4294967296 := by
  decide

/-- C9 amended: local video track ids are strictly increasing among the
first 2^31 constructions and unique among the first 2^32, and no track
operation (setUserId, attach, detach) ever changes a track's id. -/
theorem claim_C9_amended_track_ids :
    (∀ i j : Nat, i < j → j < 2147483648 → trackIdOfIndex i < trackIdOfIndex j) ∧
    (∀ i j : Nat, i < 4294967296 → j < 4294967296 →
      trackIdOfIndex i = trackIdOfIndex j → i = j) ∧
    (∀ (t : LocalVideoTrack) (uid : Nat) (r : LocalVideoDetachReason),
      ((t.setUserId uid).2).id = t.id ∧ (t.applyAttach.2).id = t.id ∧
      ((t.applyDetach r).2).id = t.id) := by
  refine ⟨?_, ?_, ?_⟩
  · intro i j hij hj
    unfold trackIdOfIndex
    rw [Nat.mod_eq_of_lt (by omega), Nat.mod_eq_of_lt (by omega),
      if_pos (by omega), if_pos hj]
    exact_mod_cast hij
  · intro i j hi hj h
    unfold trackIdOfIndex at h
    rw [Nat.mod_eq_of_lt hi, Nat.mod_eq_of_lt hj] at h
    by_cases ci : i < 2147483648 <;> by_cases cj : j < 2147483648 <;>
      simp only [ci, cj, if_true, if_false] at h <;> omega
  · intro t uid r
    exact ⟨rfl, rfl, rfl⟩

/-- Witness for the amended C9, at concrete construction indices. -/
theorem claim_C9_amended_witness :
    trackIdOfIndex 2 < trackIdOfIndex 7 ∧ (0 : Nat) = 0 :=
  ⟨claim_C9_amended_track_ids.1 2 7 (by decide) (by decide),
   claim_C9_amended_track_ids.2.1 0 0 (by decide) (by decide) rfl⟩

/-- C10: the base-class default getStatistics reports success (true) and
leaves the caller's PacketStats completely unchanged. -/
theorem claim_C10_getStatistics_default :
    ∀ stats : PacketStats, getStatisticsDefault stats = (true, stats) :=
  fun _ => rfl

end Rtc
